import Mathlib

/-!
Shallow embedding of the Toddler-Learning-App progression core.

The repository contains two near-duplicate implementations of the same
progression idea:

* `src/src/` — a mutable-state implementation: `config_loader.py`
  (`LearningModule`, `ConfigLoader`), `session_state.py` (`SessionState`,
  `SessionStateManager`) and `learning_engine.py` (`LearningEngine`).
  Embedded below in namespace `Src`.
* `src/app/engine/` — an immutable-state implementation:
  `session_state.py` (`SessionState` with `with_*` copies) and
  `learning_engine.py` (`LearningItem`, `LearningEngine`).
  Embedded below in namespace `App`.

Stateful Python methods are embedded as explicit state passing: a method
that can mutate `self` (or raise) becomes a function
`State → Result × State`, where a raised exception is an `Except.error`
result and the returned state is the state at the moment the exception
escapes.  Wall-clock timestamps (`datetime.now()`) are threaded as an
explicit `now : Nat` parameter.  Python `float` division in progress
values is modelled over `ℚ`.
-/

/-- A raw item dictionary as it appears in the YAML configuration:
an optional `name` key plus arbitrary other key/value properties
(the engine never interprets the properties). -/
structure RawItem where
  name : Option String
  properties : List (String × String)
deriving DecidableEq

/-- Python `str.capitalize()`: first character uppercased, all remaining
characters lowercased. -/
def pyCapitalize (s : String) : String :=
  match s.toList with
  | [] => ""
  | c :: cs => String.mk (c.toUpper :: cs.map Char.toLower)

/-- Python truthiness of an optional string (`if module_name:`,
`if not default_name:`): both `None` and the empty string `""` are
falsy. -/
def pyTruthy : Option String → Bool
  | none => false
  | some s => !s.isEmpty

namespace Src

/-- The `ConfigurationError` exception of `src/src/config_loader.py`,
with one constructor per `raise` site the embedding reaches. -/
inductive ConfigurationError where
  | moduleHasNoItems (moduleName : String)
  | repeatCountTooSmall (moduleName : String)
  | configFileEmpty
  | noModulesDefined
  | failedToLoadModule (moduleName : String) (inner : ConfigurationError)
  | moduleNotFound (moduleName : String)
  | noModulesAvailable
deriving DecidableEq

/-- The raw per-module mapping passed to `LearningModule.__init__`:
`display_name`, `repeat_count` and `items` are looked up with
`dict.get`, so each is optional (`items` defaulting to the empty list). -/
structure ModuleConfig where
  display_name : Option String
  repeat_count : Option Int
  items : List RawItem
deriving DecidableEq

/-- `LearningModule` of `src/src/config_loader.py` after successful
construction. -/
structure LearningModule where
  name : String
  display_name : String
  repeat_count : Int
  items : List RawItem
deriving DecidableEq

/-- `LearningModule.__init__`: applies the `dict.get` defaults
(`display_name` defaults to `name.capitalize()`, `repeat_count` to `1`),
then raises when `items` is empty, then when `repeat_count < 1`. -/
def LearningModule.init (name : String) (config : ModuleConfig) :
    Except ConfigurationError LearningModule :=
  let display_name := config.display_name.getD (pyCapitalize name)
  let repeat_count := config.repeat_count.getD 1
  let items := config.items
  if items.isEmpty then
    .error (.moduleHasNoItems name)
  else if repeat_count < 1 then
    .error (.repeatCountTooSmall name)
  else
    .ok { name := name, display_name := display_name,
          repeat_count := repeat_count, items := items }

/-- `LearningModule.get_item`: raises when `items` is empty, otherwise
returns `items[index % len(items)]` (Python `%` on a positive modulus is
`Int.emod`, which is non-negative). -/
def LearningModule.get_item (m : LearningModule) (index : Int) :
    Except ConfigurationError RawItem :=
  if h : m.items.isEmpty then
    .error (.moduleHasNoItems m.name)
  else
    .ok (m.items.get ⟨(index.emod m.items.length).toNat, by
      have hne : m.items ≠ [] := by
        intro hnil; rw [hnil] at h; simp at h
      have hlen : 0 < m.items.length := List.length_pos.mpr hne
      have h0 : (0 : Int) < (m.items.length : Int) := by exact_mod_cast hlen
      have hm := Int.emod_lt_of_pos index h0
      have hn : 0 ≤ index.emod (m.items.length : Int) :=
        Int.emod_nonneg index (by omega)
      exact (Int.toNat_lt hn).mpr hm⟩)

/-- `LearningModule.get_item_count`. -/
def LearningModule.get_item_count (m : LearningModule) : Nat :=
  m.items.length

/-- The parsed YAML root, restricted to the keys the core reads: the
`modules` mapping (as an insertion-ordered association list) and the
`settings.default_module` entry. -/
structure RawConfig where
  modules : List (String × ModuleConfig)
  default_module : Option String
deriving DecidableEq

/-- The module-construction loop of `ConfigLoader._load_config`: builds
each `LearningModule`, wrapping any construction error in a
`failedToLoadModule` error that aborts the whole load. -/
def loadModules : List (String × ModuleConfig) →
    Except ConfigurationError (List (String × LearningModule))
  | [] => .ok []
  | (n, mc) :: rest =>
    match LearningModule.init n mc with
    | .error e => .error (.failedToLoadModule n e)
    | .ok m =>
      match loadModules rest with
      | .error e => .error e
      | .ok ms => .ok ((n, m) :: ms)

/-- `ConfigLoader` after successful construction: the `_modules` mapping
and the `default_module` setting. -/
structure ConfigLoader where
  modules : List (String × LearningModule)
  default_module : Option String
deriving DecidableEq

/-- `ConfigLoader._load_config` over an already-parsed YAML root.
`none` models a root that parses to nothing or to an empty mapping
(`if not self._config` — "Config file is empty"); an empty or missing
`modules` mapping raises "No modules defined in configuration";
otherwise each module is constructed in order. -/
def ConfigLoader.load (root : Option RawConfig) :
    Except ConfigurationError ConfigLoader :=
  match root with
  | none => .error .configFileEmpty
  | some cfg =>
    if cfg.modules.isEmpty then
      .error .noModulesDefined
    else
      match loadModules cfg.modules with
      | .error e => .error e
      | .ok ms => .ok { modules := ms, default_module := cfg.default_module }

/-- `ConfigLoader.get_module`: raises when the name is not a key of the
module mapping. -/
def ConfigLoader.get_module (cl : ConfigLoader) (module_name : String) :
    Except ConfigurationError LearningModule :=
  match cl.modules.lookup module_name with
  | none => .error (.moduleNotFound module_name)
  | some m => .ok m

/-- `ConfigLoader.get_default_module`: when the `default_module`
setting is falsy (`if not default_name:` — missing or the empty
string) the first module in iteration order is returned, or an error
when there are no modules; otherwise the named module is looked up. -/
def ConfigLoader.get_default_module (cl : ConfigLoader) :
    Except ConfigurationError LearningModule :=
  if pyTruthy cl.default_module then
    cl.get_module (cl.default_module.getD "")
  else
    match cl.modules with
    | [] => .error .noModulesAvailable
    | (_, m) :: _ => .ok m

/-- `SessionState` of `src/src/session_state.py`.  All counters are
Python ints that every code path keeps non-negative, so they are
embedded as `Nat`; the `datetime` start timestamp is an opaque `Nat`
tick.  The unused `metadata` dictionary is omitted. -/
structure SessionState where
  module_name : String
  current_item_index : Nat
  current_repeat_count : Nat
  total_interactions : Nat
  session_start_time : Nat
deriving DecidableEq

/-- `SessionState.increment_interaction`. -/
def SessionState.increment_interaction (s : SessionState) : SessionState :=
  { s with total_interactions := s.total_interactions + 1 }

/-- `SessionState.increment_repeat`. -/
def SessionState.increment_repeat (s : SessionState) : SessionState :=
  { s with current_repeat_count := s.current_repeat_count + 1 }

/-- `SessionState.advance_to_next_item`: increments the index (without
wrapping — wrapping is the engine's job) and resets the repeat count. -/
def SessionState.advance_to_next_item (s : SessionState) : SessionState :=
  { s with current_item_index := s.current_item_index + 1,
           current_repeat_count := 0 }

/-- `SessionState.reset_repeat_count`. -/
def SessionState.reset_repeat_count (s : SessionState) : SessionState :=
  { s with current_repeat_count := 0 }

/-- `SessionStateManager.start_session`: a fresh all-zero state with the
given module name and start tick. -/
def startSession (module_name : String) (now : Nat) : SessionState :=
  { module_name := module_name, current_item_index := 0,
    current_repeat_count := 0, total_interactions := 0,
    session_start_time := now }

/-- The errors engine methods can raise: the `RuntimeError`s of
`src/src/learning_engine.py` plus a propagated `ConfigurationError`. -/
inductive EngineError where
  | noActiveSession
  | noActiveModule
  | configError (e : ConfigurationError)
deriving DecidableEq

/-- The dictionary returned by `LearningEngine.get_current_item`. -/
structure ItemInfo where
  item : RawItem
  item_name : String
  item_index : Nat
  repeat_number : Nat
  total_repeats : Int
  progress : ℚ
  module_name : String
  total_items : Nat
deriving DecidableEq

/-- `LearningEngine` of `src/src/learning_engine.py` together with the
`SessionStateManager._current_session` slot it drives. -/
structure LearningEngine where
  config_loader : ConfigLoader
  current_session : Option SessionState
  current_module : Option LearningModule
deriving DecidableEq

/-- `LearningEngine.get_current_item`: raises without an active session
or module, otherwise builds the display dictionary.  The method never
assigns to any state, so the engine component of the result is always
the input engine. -/
def LearningEngine.get_current_item (e : LearningEngine) :
    Except EngineError ItemInfo × LearningEngine :=
  match e.current_session with
  | none => (.error .noActiveSession, e)
  | some session =>
    match e.current_module with
    | none => (.error .noActiveModule, e)
    | some m =>
      match m.get_item (session.current_item_index : Int) with
      | .error err => (.error (.configError err), e)
      | .ok item =>
        let repeat_progress : ℚ :=
          ((session.current_repeat_count : ℚ) + 1) / (m.repeat_count : ℚ)
        (.ok { item := item,
               item_name := item.name.getD "Unknown",
               item_index := session.current_item_index,
               repeat_number := session.current_repeat_count + 1,
               total_repeats := m.repeat_count,
               progress := min repeat_progress 1,
               module_name := m.display_name,
               total_items := m.get_item_count }, e)

/-- `LearningEngine.handle_interaction`: the core transition — record
the interaction, bump the repeat count, and when it reaches the
module's `repeat_count` advance to the next item, wrapping the index to
`0` when it falls off the end; finally return `get_current_item`. -/
def LearningEngine.handle_interaction (e : LearningEngine) :
    Except EngineError ItemInfo × LearningEngine :=
  match e.current_session with
  | none => (.error .noActiveSession, e)
  | some session =>
    match e.current_module with
    | none => (.error .noActiveModule, e)
    | some m =>
      let session := session.increment_interaction
      let session := session.increment_repeat
      let session :=
        if (session.current_repeat_count : Int) ≥ m.repeat_count then
          let session := session.advance_to_next_item
          if session.current_item_index ≥ m.get_item_count then
            { session with current_item_index := 0 }
          else session
        else session
      let e := { e with current_session := some session }
      e.get_current_item

/-- The dictionary returned by `LearningEngine.get_session_summary`. -/
structure SessionSummary where
  module : String
  total_interactions : Nat
  current_item_index : Nat
  session_duration : Nat
  items_completed : Nat
deriving DecidableEq

/-- `LearningEngine.get_session_summary`: returns the empty dictionary
(`none`) without a session; note `items_completed` is derived from the
index and repeat positions, not counted. -/
def LearningEngine.get_session_summary (e : LearningEngine) (now : Nat) :
    Option SessionSummary :=
  match e.current_session with
  | none => none
  | some session =>
    some { module := session.module_name,
           total_interactions := session.total_interactions,
           current_item_index := session.current_item_index,
           session_duration := now - session.session_start_time,
           items_completed :=
             if session.current_repeat_count = 0 then
               session.current_item_index
             else
               session.current_item_index + 1 }

/-- `LearningEngine.reset`: zeroes the item index and repeat count of
the active session (raising without one) and returns the first item. -/
def LearningEngine.reset (e : LearningEngine) :
    Except EngineError ItemInfo × LearningEngine :=
  match e.current_session with
  | none => (.error .noActiveSession, e)
  | some session =>
    let session := { session with current_item_index := 0 }
    let session := session.reset_repeat_count
    let e := { e with current_session := some session }
    e.get_current_item

/-- `LearningEngine.start`: a truthy name (`if module_name:` — present
and non-empty) is looked up in the catalog, a falsy one falls through
to the default module; a lookup failure escapes before any assignment;
otherwise a fresh session is started and the first item returned. -/
def LearningEngine.start (e : LearningEngine) (module_name : Option String)
    (now : Nat) : Except EngineError ItemInfo × LearningEngine :=
  match (if pyTruthy module_name then
           e.config_loader.get_module (module_name.getD "")
         else
           e.config_loader.get_default_module) with
  | .error err => (.error (.configError err), e)
  | .ok m =>
    let e := { e with current_module := some m }
    let e := { e with current_session := some (startSession m.name now) }
    e.get_current_item

/-- `LearningEngine.is_active`. -/
def LearningEngine.is_active (e : LearningEngine) : Bool :=
  e.current_session.isSome

/-- `k` successive calls to `handle_interaction`, keeping the engine
and discarding the returned dictionaries. -/
def runInteractions (e : LearningEngine) : Nat → LearningEngine
  | 0 => e
  | k + 1 => ((runInteractions e k).handle_interaction).2

end Src

namespace App

/-- `SessionState` of `src/app/engine/session_state.py` (the
immutable-style variant, with its extra `items_completed` counter).
The unused `metadata` dictionary is omitted. -/
structure SessionState where
  current_item_index : Nat
  current_repeat_count : Nat
  total_interactions : Nat
  session_start_time : Nat
  items_completed : Nat
deriving DecidableEq

/-- `SessionState()`: the default constructor — all counters zero and a
fresh start tick. -/
def SessionState.init (now : Nat) : SessionState :=
  { current_item_index := 0, current_repeat_count := 0,
    total_interactions := 0, session_start_time := now,
    items_completed := 0 }

/-- `SessionState.with_interaction`. -/
def SessionState.with_interaction (s : SessionState) : SessionState :=
  { s with total_interactions := s.total_interactions + 1 }

/-- `SessionState.with_repeat`. -/
def SessionState.with_repeat (s : SessionState) : SessionState :=
  { s with current_repeat_count := s.current_repeat_count + 1 }

/-- `SessionState.with_next_item`: jumps to the given index, resets the
repeat count and counts one more completed item. -/
def SessionState.with_next_item (s : SessionState) (new_index : Nat) :
    SessionState :=
  { s with current_item_index := new_index, current_repeat_count := 0,
           items_completed := s.items_completed + 1 }

/-- `LearningItem` of `src/app/engine/learning_engine.py`. -/
structure LearningItem where
  name : String
  properties : List (String × String)
deriving DecidableEq

/-- `LearningItem.from_dict`: the `name` key (defaulting to
`"Unknown"`) plus every other key as a property. -/
def LearningItem.from_dict (data : RawItem) : LearningItem :=
  { name := data.name.getD "Unknown", properties := data.properties }

/-- The `ValueError`s of `LearningEngine.__init__`. -/
inductive ValueError where
  | noItems
  | repeatCountTooSmall
deriving DecidableEq

/-- `LearningEngine` of `src/app/engine/learning_engine.py`. -/
structure LearningEngine where
  items : List LearningItem
  repeat_count : Int
  state : SessionState
deriving DecidableEq

/-- `LearningEngine.__init__`: rejects an empty item list, then a
`repeat_count < 1`; otherwise converts every raw item with `from_dict`
and starts from a fresh `SessionState`. -/
def LearningEngine.init (items : List RawItem) (repeat_count : Int)
    (now : Nat) : Except ValueError LearningEngine :=
  if items.isEmpty then
    .error .noItems
  else if repeat_count < 1 then
    .error .repeatCountTooSmall
  else
    .ok { items := items.map LearningItem.from_dict,
          repeat_count := repeat_count,
          state := SessionState.init now }

/-- `LearningEngine.get_current_item`: `items[index % len(items)]`
(`none` models the crash on an empty item list, which `__init__`
prevents). -/
def LearningEngine.get_current_item (e : LearningEngine) :
    Option LearningItem :=
  e.items.get? (e.state.current_item_index % e.items.length)

/-- The dictionary returned by `LearningEngine.get_progress_info`. -/
structure ProgressInfo where
  item : Option LearningItem
  repeat_number : Nat
  total_repeats : Int
  item_index : Nat
  total_items : Nat
  progress_percentage : ℚ
deriving DecidableEq

/-- `LearningEngine.get_progress_info`: a read-only projection of the
state (note `progress_percentage` is an unclamped
`(repeat + 1) / repeat_count * 100`).  The method never assigns to any
state, so the engine component of the result is always the input
engine. -/
def LearningEngine.get_progress_info (e : LearningEngine) :
    ProgressInfo × LearningEngine :=
  ({ item := e.get_current_item,
     repeat_number := e.state.current_repeat_count + 1,
     total_repeats := e.repeat_count,
     item_index := e.state.current_item_index,
     total_items := e.items.length,
     progress_percentage :=
       ((e.state.current_repeat_count : ℚ) + 1) / (e.repeat_count : ℚ)
         * 100 }, e)

/-- `LearningEngine.handle_interaction`: record the interaction, bump
the repeat count, and when it reaches `repeat_count` advance to the
next index (`0` when falling off the end) via `with_next_item`; finally
return `get_progress_info`. -/
def LearningEngine.handle_interaction (e : LearningEngine) :
    ProgressInfo × LearningEngine :=
  let e := { e with state := e.state.with_interaction }
  let e := { e with state := e.state.with_repeat }
  let e :=
    if (e.state.current_repeat_count : Int) ≥ e.repeat_count then
      let next_index := e.state.current_item_index + 1
      let next_index := if next_index ≥ e.items.length then 0 else next_index
      { e with state := e.state.with_next_item next_index }
    else e
  e.get_progress_info

/-- The dictionary returned by `LearningEngine.get_session_summary`. -/
structure SessionSummary where
  total_interactions : Nat
  items_completed : Nat
  current_item_index : Nat
  session_duration : Nat
  total_items : Nat
  repeat_count : Int
deriving DecidableEq

/-- `LearningEngine.get_session_summary`: here `items_completed` is the
state's counted field. -/
def LearningEngine.get_session_summary (e : LearningEngine) (now : Nat) :
    SessionSummary :=
  { total_interactions := e.state.total_interactions,
    items_completed := e.state.items_completed,
    current_item_index := e.state.current_item_index,
    session_duration := now - e.state.session_start_time,
    total_items := e.items.length,
    repeat_count := e.repeat_count }

/-- `LearningEngine.reset`: replaces the whole state with a fresh
`SessionState()` — all counters (including `total_interactions`) return
to zero and the start tick is refreshed. -/
def LearningEngine.reset (e : LearningEngine) (now : Nat) : LearningEngine :=
  { e with state := SessionState.init now }

/-- `k` successive calls to `handle_interaction`, keeping the engine
and discarding the returned dictionaries. -/
def runInteractions (e : LearningEngine) : Nat → LearningEngine
  | 0 => e
  | k + 1 => ((runInteractions e k).handle_interaction).2

end App

/-- One interaction advances the repeat counter cyclically: it wraps to
`0` exactly when it would reach `R`. -/
lemma mod_succ_cycle {k R : Nat} (hR : 0 < R) :
    (k + 1) % R = if k % R + 1 = R then 0 else k % R + 1 := by
  have h1 : (k % R + 1) % R = (k + 1) % R := Nat.mod_add_mod k R 1
  by_cases h : k % R + 1 = R
  · rw [if_pos h, ← h1, h, Nat.mod_self]
  · have hlt : k % R + 1 < R := by
      have := Nat.mod_lt k hR
      omega
    rw [if_neg h, ← h1, Nat.mod_eq_of_lt hlt]

/-- One interaction advances the completed-repeats quotient exactly when
the repeat counter wraps. -/
lemma div_succ_cycle {k R : Nat} (hR : 0 < R) :
    (k + 1) / R = if k % R + 1 = R then k / R + 1 else k / R := by
  rw [Nat.succ_div]
  by_cases h : k % R + 1 = R
  · have hd : R ∣ k + 1 :=
      Nat.dvd_of_mod_eq_zero (by rw [mod_succ_cycle hR, if_pos h])
    rw [if_pos h, if_pos hd]
  · have hnd : ¬ R ∣ k + 1 := by
      intro hdvd
      obtain ⟨c, hc⟩ := hdvd
      have h0 : (k + 1) % R = 0 := by rw [hc]; exact Nat.mul_mod_right R c
      rw [mod_succ_cycle hR, if_neg h] at h0
      omega
    rw [if_neg h, if_neg hnd, Nat.add_zero]

/-- Incrementing an index and wrapping at `N` is the successor modulo
`N`, provided the index is already reduced. -/
lemma mod_succ_wrap {q N : Nat} (hN : 0 < N) :
    (q + 1) % N = if N ≤ q % N + 1 then 0 else q % N + 1 := by
  have h1 : (q % N + 1) % N = (q + 1) % N := Nat.mod_add_mod q N 1
  by_cases h : N ≤ q % N + 1
  · have he : q % N + 1 = N := by
      have := Nat.mod_lt q hN
      omega
    rw [if_pos h, ← h1, he, Nat.mod_self]
  · rw [if_neg h, ← h1, Nat.mod_eq_of_lt (by omega)]

/-- Closed form for the app engine: starting from a fresh state, after
`k` interactions the index is `(k / R) % N`, the repeat counter is
`k % R`, `total_interactions` is `k` and `items_completed` is `k / R`. -/
lemma App.app_run_closed_form (items0 : List App.LearningItem) (R now : Nat)
    (hR : 1 ≤ R) (hN : items0 ≠ []) (k : Nat) :
    App.runInteractions ⟨items0, (R : Int), App.SessionState.init now⟩ k =
      ⟨items0, (R : Int),
        { current_item_index := k / R % items0.length,
          current_repeat_count := k % R,
          total_interactions := k,
          session_start_time := now,
          items_completed := k / R }⟩ := by
  have hR0 : 0 < R := hR
  have hN0 : 0 < items0.length := List.length_pos.mpr hN
  induction k with
  | zero =>
    simp [App.runInteractions, App.SessionState.init]
  | succ k ih =>
    rw [App.runInteractions, ih]
    simp only [App.LearningEngine.handle_interaction,
      App.LearningEngine.get_progress_info,
      App.SessionState.with_interaction, App.SessionState.with_repeat,
      App.SessionState.with_next_item, ge_iff_le]
    by_cases h : k % R + 1 = R
    · rw [if_pos (show (R : Int) ≤ ((k % R + 1 : Nat) : Int) by
        exact_mod_cast h.ge)]
      rw [mod_succ_cycle hR0, div_succ_cycle hR0, if_pos h, if_pos h,
        mod_succ_wrap hN0]
    · rw [if_neg (show ¬ (R : Int) ≤ ((k % R + 1 : Nat) : Int) by
        have hlt : k % R + 1 < R := by
          have := Nat.mod_lt k hR0
          omega
        exact_mod_cast Nat.not_le.mpr hlt)]
      rw [mod_succ_cycle hR0, div_succ_cycle hR0, if_neg h, if_neg h]

/-- `Src.LearningEngine.get_current_item` never changes the engine. -/
lemma Src.get_current_item_engine (e : Src.LearningEngine) :
    (e.get_current_item).2 = e := by
  obtain ⟨cl, cs, cm⟩ := e
  cases cs with
  | none => rfl
  | some s =>
    cases cm with
    | none => rfl
    | some m =>
      unfold Src.LearningEngine.get_current_item
      dsimp only
      cases m.get_item (s.current_item_index : Int) <;> rfl

/-- The engine produced by one `Src` interaction on an engine with an
active session and module: only the session counters change. -/
lemma Src.handle_interaction_engine (cl : Src.ConfigLoader)
    (s : Src.SessionState) (m : Src.LearningModule) :
    (Src.LearningEngine.handle_interaction ⟨cl, some s, some m⟩).2 =
      ⟨cl, some (
        let s := s.increment_interaction
        let s := s.increment_repeat
        if (s.current_repeat_count : Int) ≥ m.repeat_count then
          let s := s.advance_to_next_item
          if s.current_item_index ≥ m.get_item_count then
            { s with current_item_index := 0 }
          else s
        else s), some m⟩ := by
  unfold Src.LearningEngine.handle_interaction
  dsimp only
  rw [Src.get_current_item_engine]

/-- Closed form for the `Src` engine: starting from a freshly started
session on a validated module with `N = m.items.length` items and
repeat count `R`, after `k` interactions the index is `(k / R) % N`,
the repeat counter is `k % R` and `total_interactions` is `k`. -/
lemma Src.src_run_closed_form (cl : Src.ConfigLoader) (m : Src.LearningModule)
    (now R : Nat) (hR : 1 ≤ R) (hrep : m.repeat_count = (R : Int))
    (hN : m.items ≠ []) (k : Nat) :
    Src.runInteractions ⟨cl, some (Src.startSession m.name now), some m⟩ k =
      ⟨cl, some { module_name := m.name,
                  current_item_index := k / R % m.items.length,
                  current_repeat_count := k % R,
                  total_interactions := k,
                  session_start_time := now }, some m⟩ := by
  have hR0 : 0 < R := hR
  have hN0 : 0 < m.items.length := List.length_pos.mpr hN
  induction k with
  | zero =>
    simp [Src.runInteractions, Src.startSession]
  | succ k ih =>
    rw [Src.runInteractions, ih, Src.handle_interaction_engine]
    simp only [Src.SessionState.increment_interaction,
      Src.SessionState.increment_repeat,
      Src.SessionState.advance_to_next_item,
      Src.LearningModule.get_item_count, hrep, ge_iff_le]
    by_cases h : k % R + 1 = R
    · rw [if_pos (show (R : Int) ≤ ((k % R + 1 : Nat) : Int) by
        exact_mod_cast h.ge)]
      rw [mod_succ_cycle hR0, div_succ_cycle hR0, if_pos h, if_pos h,
        mod_succ_wrap hN0]
      split <;> rfl
    · rw [if_neg (show ¬ (R : Int) ≤ ((k % R + 1 : Nat) : Int) by
        have hlt : k % R + 1 < R := by
          have := Nat.mod_lt k hR0
          omega
        exact_mod_cast Nat.not_le.mpr hlt)]
      rw [mod_succ_cycle hR0, div_succ_cycle hR0, if_neg h, if_neg h]

/-- On a non-empty module, `get_item` succeeds and returns the item at
position `index.emod length`. -/
lemma Src.get_item_ok (m : Src.LearningModule) (index : Int)
    (hN : m.items ≠ []) :
    ∃ it, m.get_item index = .ok it ∧
      m.items.get? (index.emod m.items.length).toNat = some it := by
  unfold Src.LearningModule.get_item
  have hb : ¬ m.items.isEmpty = true := by
    simp only [List.isEmpty_iff]
    exact hN
  rw [dif_neg hb]
  exact ⟨_, rfl, List.get?_eq_get _⟩

/-- A successful `App.LearningEngine.init` forces the validation
conditions and determines the engine. -/
lemma App.init_shape {items : List RawItem} {rc : Int} {now : Nat}
    {e : App.LearningEngine}
    (he : App.LearningEngine.init items rc now = .ok e) :
    items ≠ [] ∧ 1 ≤ rc ∧
      e = ⟨items.map App.LearningItem.from_dict, rc,
           App.SessionState.init now⟩ := by
  unfold App.LearningEngine.init at he
  by_cases h1 : items.isEmpty
  · rw [if_pos h1] at he; cases he
  · rw [if_neg h1] at he
    by_cases h2 : rc < 1
    · rw [if_pos h2] at he; cases he
    · rw [if_neg h2] at he
      injection he with h
      refine ⟨?_, by omega, h.symm⟩
      intro hnil
      rw [hnil] at h1
      exact h1 rfl

/-- `start` with a truthy (non-empty) name the catalog resolves
installs the module and a fresh session. -/
lemma Src.start_engine (e : Src.LearningEngine) (n : String)
    (m : Src.LearningModule) (now : Nat) (hn : n ≠ "")
    (hm : e.config_loader.get_module n = .ok m) :
    (e.start (some n) now).2 =
      ⟨e.config_loader, some (Src.startSession m.name now), some m⟩ := by
  unfold Src.LearningEngine.start
  have ht : pyTruthy (some n) = true := by
    unfold pyTruthy
    dsimp only
    cases hb : n.isEmpty with
    | false => rfl
    | true => exact absurd ((String.isEmpty_iff n).mp hb) hn
  rw [if_pos ht]
  simp only [Option.getD_some]
  rw [hm]
  dsimp only
  rw [Src.get_current_item_engine]

/-- The three-item demo catalog of the repository's tests
(`Red`/`Blue`/`Green`). -/
def demoItems : List RawItem :=
  [⟨some "Red", [("color", "255,0,0")]⟩,
   ⟨some "Blue", [("color", "0,0,255")]⟩,
   ⟨some "Green", [("color", "0,255,0")]⟩]

/-- A validated 3-item module with repeat count 2, as in the spec's
worked scenario. -/
def colorsModule : Src.LearningModule :=
  { name := "colors", display_name := "Colors", repeat_count := 2,
    items := demoItems }

/-- A catalog holding only `colorsModule`. -/
def demoLoader : Src.ConfigLoader :=
  { modules := [("colors", colorsModule)], default_module := some "colors" }

/-- A `Src` engine before any session is started. -/
def demoSrcEngine : Src.LearningEngine :=
  { config_loader := demoLoader, current_session := none,
    current_module := none }

/-- The app engine over the same three items with repeat count 2. -/
def demoAppEngine : App.LearningEngine :=
  { items := demoItems.map App.LearningItem.from_dict, repeat_count := 2,
    state := App.SessionState.init 0 }

/-- Claim C1: for every module with `N ≥ 1` items and repeat count
`R ≥ 1`, and every interaction count `k < N * R`: starting from a
freshly started session and applying `handle_interaction` exactly `k`
times, the progress info reports `current_item_index = (k / R) % N` and
`current_repeat_count = k % R` (its `repeat_number` field is the repeat
count plus one).  Stated for both implementations: the app engine's
`get_progress_info` and the `Src` engine's `get_current_item`. -/
theorem claim_C1_progress_after_k_interactions :
    (∀ (items : List RawItem) (R now k : Nat) (e : App.LearningEngine),
      1 ≤ R → k < items.length * R →
      App.LearningEngine.init items (R : Int) now = .ok e →
      ((App.runInteractions e k).get_progress_info).1.item_index
          = k / R % items.length ∧
      ((App.runInteractions e k).get_progress_info).1.repeat_number
          = k % R + 1) ∧
    (∀ (e : Src.LearningEngine) (n : String) (m : Src.LearningModule)
       (R now k : Nat),
      n ≠ "" → e.config_loader.get_module n = .ok m →
      m.repeat_count = (R : Int) → 1 ≤ R → k < m.items.length * R →
      ∃ info,
        ((Src.runInteractions (e.start (some n) now).2 k).get_current_item).1
            = .ok info ∧
        info.item_index = k / R % m.items.length ∧
        info.repeat_number = k % R + 1) := by
  constructor
  · intro items R now k e hR hk he
    obtain ⟨hN, _, hE⟩ := App.init_shape he
    have hN' : items.map App.LearningItem.from_dict ≠ [] := by
      simpa using hN
    rw [hE, App.app_run_closed_form _ R now hR hN' k]
    unfold App.LearningEngine.get_progress_info
    simp [List.length_map]
  · intro e n m R now k hn hm hrep hR hk
    have hN : m.items ≠ [] := by
      intro hnil
      rw [hnil] at hk
      simp at hk
    rw [Src.start_engine e n m now hn hm,
      Src.src_run_closed_form e.config_loader m now R hR hrep hN k]
    obtain ⟨it, hok, _⟩ :=
      Src.get_item_ok m ((k / R % m.items.length : Nat) : Int) hN
    unfold Src.LearningEngine.get_current_item
    dsimp only
    rw [hok]
    exact ⟨_, rfl, rfl, rfl⟩

/-- Witness for C1 at the spec's worked scenario (3 items, repeat 2,
5 interactions): item index `5 / 2 % 3 = 2` and repeat number
`5 % 2 + 1 = 2`. -/
theorem claim_C1_witness :
    (((App.runInteractions demoAppEngine 5).get_progress_info).1.item_index
        = 5 / 2 % 3 ∧
     ((App.runInteractions demoAppEngine 5).get_progress_info).1.repeat_number
        = 5 % 2 + 1) ∧
    ∃ info,
      ((Src.runInteractions (demoSrcEngine.start (some "colors") 0).2
          5).get_current_item).1 = .ok info ∧
      info.item_index = 5 / 2 % 3 ∧
      info.repeat_number = 5 % 2 + 1 := by
  constructor
  · exact claim_C1_progress_after_k_interactions.1 demoItems 2 0 5
      demoAppEngine (by decide) (by decide) rfl
  · exact claim_C1_progress_after_k_interactions.2 demoSrcEngine "colors"
      colorsModule 2 0 5 (by decide) rfl rfl (by decide) (by decide)

/-- Claim C2 counterexample: on the `Src` implementation with the
3-item module `colors` and repeat count 2, after exactly `3 * 2 = 6`
interactions from a fresh session the summary reports
`items_completed = 0`, not `N = 3`. -/
theorem claim_C2_counterexample :
    ((Src.runInteractions (demoSrcEngine.start (some "colors") 0).2
        6).get_session_summary 0).map Src.SessionSummary.items_completed
      = some 0 ∧ (0 : Nat) ≠ 3 :=
  ⟨rfl, by decide⟩

/-- Claim C2 (amended): after exactly `N*R` interactions from a fresh
session both implementations return the counters to
`(current_item_index, current_repeat_count) = (0, 0)`; the app
implementation's summary reports `items_completed = N` (incremented
once per advance, including the wrap-around advance), but the `Src`
implementation derives `items_completed` from the current position and
reports `0` at that point. -/
theorem claim_C2_full_cycle_amended :
    (∀ (items : List RawItem) (R now now2 : Nat) (e : App.LearningEngine),
      1 ≤ R →
      App.LearningEngine.init items (R : Int) now = .ok e →
      (App.runInteractions e (items.length * R)).state.current_item_index
          = 0 ∧
      (App.runInteractions e (items.length * R)).state.current_repeat_count
          = 0 ∧
      ((App.runInteractions e (items.length * R)).get_session_summary
          now2).items_completed = items.length) ∧
    (∀ (e : Src.LearningEngine) (n : String) (m : Src.LearningModule)
       (R now now2 : Nat),
      n ≠ "" → e.config_loader.get_module n = .ok m →
      m.repeat_count = (R : Int) → 1 ≤ R → m.items ≠ [] →
      ∃ s, (Src.runInteractions (e.start (some n) now).2
              (m.items.length * R)).current_session = some s ∧
        s.current_item_index = 0 ∧ s.current_repeat_count = 0 ∧
        ((Src.runInteractions (e.start (some n) now).2
            (m.items.length * R)).get_session_summary now2).map
          Src.SessionSummary.items_completed = some 0) := by
  constructor
  · intro items R now now2 e hR he
    obtain ⟨hN, _, hE⟩ := App.init_shape he
    have hN' : items.map App.LearningItem.from_dict ≠ [] := by
      simpa using hN
    have hdiv : items.length * R / R = items.length :=
      Nat.mul_div_cancel items.length hR
    have hmod : items.length * R % R = 0 := Nat.mul_mod_left items.length R
    rw [hE, App.app_run_closed_form _ R now hR hN' _]
    unfold App.LearningEngine.get_session_summary
    simp [List.length_map, hdiv, hmod, Nat.mod_self]
  · intro e n m R now now2 hn hm hrep hR hN
    have hdiv : m.items.length * R / R = m.items.length :=
      Nat.mul_div_cancel m.items.length hR
    have hmod : m.items.length * R % R = 0 := Nat.mul_mod_left m.items.length R
    rw [Src.start_engine e n m now hn hm,
      Src.src_run_closed_form e.config_loader m now R hR hrep hN _]
    refine ⟨_, rfl, ?_, ?_, ?_⟩
    · simp [hdiv, Nat.mod_self]
    · simp [hmod]
    · unfold Src.LearningEngine.get_session_summary
      dsimp only
      simp [hdiv, hmod, Nat.mod_self]

/-- Witness for the amended C2 at the demo data: 3 items, repeat 2,
6 interactions. -/
theorem claim_C2_amended_witness :
    ((App.runInteractions demoAppEngine (demoItems.length * 2)).state.current_item_index
        = 0 ∧
     (App.runInteractions demoAppEngine (demoItems.length * 2)).state.current_repeat_count
        = 0 ∧
     ((App.runInteractions demoAppEngine (demoItems.length * 2)).get_session_summary
        9).items_completed = demoItems.length) ∧
    ∃ s, (Src.runInteractions (demoSrcEngine.start (some "colors") 0).2
            (colorsModule.items.length * 2)).current_session = some s ∧
      s.current_item_index = 0 ∧ s.current_repeat_count = 0 ∧
      ((Src.runInteractions (demoSrcEngine.start (some "colors") 0).2
          (colorsModule.items.length * 2)).get_session_summary 9).map
        Src.SessionSummary.items_completed = some 0 := by
  constructor
  · exact claim_C2_full_cycle_amended.1 demoItems 2 0 9 demoAppEngine
      (by decide) rfl
  · exact claim_C2_full_cycle_amended.2 demoSrcEngine "colors" colorsModule
      2 0 9 (by decide) rfl rfl (by decide) (by decide)

/-- Claim C3 counterexample: on the app implementation, after one
interaction `total_interactions = 1`, but `reset` replaces the state
with a fresh one, so `total_interactions` drops back to `0` instead of
staying unchanged. -/
theorem claim_C3_counterexample :
    (App.runInteractions demoAppEngine 1).state.total_interactions = 1 ∧
    ((App.runInteractions demoAppEngine 1).reset 7).state.total_interactions
      = 0 ∧ (0 : Nat) ≠ 1 := by
  refine ⟨rfl, rfl, by decide⟩

/-- Claim C3 (amended): the `Src` implementation's `reset` zeroes
`current_item_index` and `current_repeat_count` while leaving
`total_interactions` and the session start timestamp unchanged; the app
implementation's `reset` instead installs a brand-new `SessionState`,
so every counter (including `total_interactions`) is zeroed and the
start timestamp is refreshed. -/
theorem claim_C3_reset_amended :
    (∀ (e : Src.LearningEngine) (s : Src.SessionState),
      e.current_session = some s →
      ∃ s', (e.reset).2.current_session = some s' ∧
        s'.current_item_index = 0 ∧ s'.current_repeat_count = 0 ∧
        s'.total_interactions = s.total_interactions ∧
        s'.session_start_time = s.session_start_time) ∧
    (∀ (e : App.LearningEngine) (now2 : Nat),
      (e.reset now2).state = App.SessionState.init now2) := by
  constructor
  · intro e s hs
    refine ⟨{ s with current_item_index := 0, current_repeat_count := 0 },
      ?_, rfl, rfl, rfl, rfl⟩
    unfold Src.LearningEngine.reset
    dsimp only
    rw [hs]
    dsimp only
    rw [Src.get_current_item_engine]
    exact rfl
  · intro e now2
    rfl

/-- Witness for the amended C3: a `Src` engine mid-session keeps its
interaction count and timestamp across `reset`; the app engine's reset
state is the fresh state. -/
theorem claim_C3_amended_witness :
    (∃ s', ((Src.runInteractions (demoSrcEngine.start (some "colors") 11).2
        5).reset).2.current_session = some s' ∧
      s'.current_item_index = 0 ∧ s'.current_repeat_count = 0 ∧
      s'.total_interactions = 5 ∧ s'.session_start_time = 11) ∧
    (demoAppEngine.reset 7).state = App.SessionState.init 7 := by
  constructor
  · have h := claim_C3_reset_amended.1
      (Src.runInteractions (demoSrcEngine.start (some "colors") 11).2 5)
      { module_name := "colors", current_item_index := 2,
        current_repeat_count := 1, total_interactions := 5,
        session_start_time := 11 } rfl
    simpa using h
  · exact claim_C3_reset_amended.2 demoAppEngine 7

/-- A single-item app engine whose state carries
`current_repeat_count = 1` with `repeat_count = 1` (the transition rule
never produces this at observation time, but `get_progress_info` is
defined on any state). -/
def unclampedEngine : App.LearningEngine :=
  { items := [⟨"X", []⟩], repeat_count := 1,
    state := { current_item_index := 0, current_repeat_count := 1,
               total_interactions := 1, session_start_time := 0,
               items_completed := 1 } }

/-- Claim C4 counterexample: the app implementation's
`get_progress_info` does not clamp — with `repeat_count = 1` and
`current_repeat_count = 1` it reports `200` percent, exceeding the
claimed ceiling (`1.0`, i.e. 100 percent). -/
theorem claim_C4_counterexample :
    (unclampedEngine.get_progress_info).1.progress_percentage = 200 ∧
    ¬ (unclampedEngine.get_progress_info).1.progress_percentage ≤ 100 := by
  constructor
  · norm_num [App.LearningEngine.get_progress_info, unclampedEngine]
  · norm_num [App.LearningEngine.get_progress_info, unclampedEngine]

/-- Claim C4 (amended): the `Src` implementation's projection reports
`progress = min((current_repeat_count + 1) / repeat_count, 1.0)` and so
never exceeds `1.0` for any value of `current_repeat_count`; the app
implementation's `get_progress_info` has no clamp, and its
`progress_percentage = (current_repeat_count + 1) / repeat_count * 100`
stays at or below 100 only for observable states, where
`current_repeat_count < repeat_count`. -/
theorem claim_C4_progress_amended :
    (∀ (e : Src.LearningEngine) (s : Src.SessionState)
       (m : Src.LearningModule),
      e.current_session = some s → e.current_module = some m →
      m.items ≠ [] →
      ∃ info, (e.get_current_item).1 = .ok info ∧
        info.progress
          = min (((s.current_repeat_count : ℚ) + 1) / (m.repeat_count : ℚ)) 1 ∧
        info.progress ≤ 1) ∧
    (∀ (e : App.LearningEngine) (R : Nat),
      e.repeat_count = (R : Int) → 1 ≤ R →
      e.state.current_repeat_count < R →
      (e.get_progress_info).1.progress_percentage ≤ 100) := by
  constructor
  · intro e s m hs hm hN
    obtain ⟨it, hok, _⟩ := Src.get_item_ok m (s.current_item_index : Int) hN
    unfold Src.LearningEngine.get_current_item
    rw [hs]
    dsimp only
    rw [hm]
    dsimp only
    rw [hok]
    exact ⟨_, rfl, rfl, min_le_right _ _⟩
  · intro e R hrep hR hc
    unfold App.LearningEngine.get_progress_info
    dsimp only
    rw [hrep]
    have hRpos : (0 : ℚ) < (R : ℚ) := by
      have : 0 < R := hR
      exact_mod_cast this
    have h1 : ((e.state.current_repeat_count : ℚ) + 1) ≤ (R : ℚ) := by
      exact_mod_cast Nat.succ_le_of_lt hc
    have h2 : ((e.state.current_repeat_count : ℚ) + 1) / (R : ℚ) ≤ 1 := by
      rw [div_le_one hRpos]
      exact h1
    push_cast
    calc ((e.state.current_repeat_count : ℚ) + 1) / (R : ℚ) * 100
        ≤ 1 * 100 := by
          exact mul_le_mul_of_nonneg_right h2 (by norm_num)
      _ = 100 := one_mul 100

/-- Witness for the amended C4: the fresh `Src` session reports
`progress = min(1/2, 1) ≤ 1`; the demo app engine at its fresh state
reports at most 100 percent. -/
theorem claim_C4_amended_witness :
    (∃ info, ((demoSrcEngine.start (some "colors") 0).2.get_current_item).1
        = .ok info ∧
      info.progress = min (((0 : Nat) + 1 : ℚ) / ((2 : Int) : ℚ)) 1 ∧
      info.progress ≤ 1) ∧
    (demoAppEngine.get_progress_info).1.progress_percentage ≤ 100 := by
  constructor
  · exact claim_C4_progress_amended.1 (demoSrcEngine.start (some "colors") 0).2
      (Src.startSession "colors" 0) colorsModule rfl rfl (by decide)
  · exact claim_C4_progress_amended.2 demoAppEngine 2 rfl (by decide)
      (by decide)

/-- Claim C5: on a module with at least one item, `get_item` succeeds
for every integer index (negative or beyond the item count) and returns
`items[index mod len(items)]`. -/
theorem claim_C5_get_item_wraps :
    ∀ (m : Src.LearningModule) (index : Int), m.items ≠ [] →
      ∃ it, m.get_item index = .ok it ∧
        m.items.get? (index.emod m.items.length).toNat = some it :=
  fun m index hN => Src.get_item_ok m index hN

/-- Witness for C5 on the 3-item demo module at the out-of-range
index 7 (`7 mod 3 = 1`). -/
theorem claim_C5_witness :
    ∃ it, colorsModule.get_item 7 = .ok it ∧
      colorsModule.items.get?
        (((7 : Int).emod colorsModule.items.length).toNat) = some it :=
  claim_C5_get_item_wraps colorsModule 7 (by decide)

/-- Claim C6: both projections (`Src.get_current_item` and app
`get_progress_info`) leave every field of the engine unchanged, and two
consecutive calls with no interaction in between return identical
results. -/
theorem claim_C6_progress_info_idempotent :
    (∀ e : Src.LearningEngine,
      (e.get_current_item).2 = e ∧
      ((e.get_current_item).2.get_current_item).1
        = (e.get_current_item).1 ∧
      ((e.get_current_item).2.get_current_item).2 = e) ∧
    (∀ e : App.LearningEngine,
      (e.get_progress_info).2 = e ∧
      ((e.get_progress_info).2.get_progress_info).1
        = (e.get_progress_info).1 ∧
      ((e.get_progress_info).2.get_progress_info).2 = e) := by
  constructor
  · intro e
    refine ⟨Src.get_current_item_engine e, ?_, ?_⟩
    · rw [Src.get_current_item_engine e]
    · rw [Src.get_current_item_engine e, Src.get_current_item_engine e]
  · intro e
    exact ⟨rfl, rfl, rfl⟩

/-- `LearningModule.__init__` succeeds exactly when the item list is
non-empty and the (defaulted) repeat count is at least 1. -/
lemma Src.init_ok_iff (n : String) (mc : Src.ModuleConfig) :
    (∃ m, Src.LearningModule.init n mc = .ok m) ↔
      mc.items ≠ [] ∧ 1 ≤ mc.repeat_count.getD 1 := by
  unfold Src.LearningModule.init
  by_cases h1 : mc.items.isEmpty
  · have hnil : mc.items = [] := by simpa [List.isEmpty_iff] using h1
    simp [h1, hnil]
  · have hne : mc.items ≠ [] := by simpa [List.isEmpty_iff] using h1
    rw [if_neg h1]
    by_cases h2 : mc.repeat_count.getD 1 < 1
    · rw [if_pos h2]
      simp [hne]
      omega
    · rw [if_neg h2]
      simp [hne]
      omega

/-- The module-construction loop succeeds exactly when every module
specification passes both validation checks. -/
lemma Src.loadModules_ok (l : List (String × Src.ModuleConfig)) :
    (∃ ms, Src.loadModules l = .ok ms) ↔
      ∀ p ∈ l, p.2.items ≠ [] ∧ 1 ≤ p.2.repeat_count.getD 1 := by
  induction l with
  | nil => simp [Src.loadModules]
  | cons hd tl ih =>
    obtain ⟨n, mc⟩ := hd
    simp only [Src.loadModules, List.mem_cons, forall_eq_or_imp]
    cases hinit : Src.LearningModule.init n mc with
    | error e =>
      have hbad : ¬ (mc.items ≠ [] ∧ 1 ≤ mc.repeat_count.getD 1) := by
        intro hgood
        obtain ⟨m, hm⟩ := (Src.init_ok_iff n mc).mpr hgood
        rw [hm] at hinit
        cases hinit
      constructor
      · rintro ⟨ms, hms⟩
        simp at hms
      · rintro ⟨hg, _⟩
        exact absurd hg hbad
    | ok m =>
      have hgood : mc.items ≠ [] ∧ 1 ≤ mc.repeat_count.getD 1 :=
        (Src.init_ok_iff n mc).mp ⟨m, hinit⟩
      cases hrest : Src.loadModules tl with
      | error e2 =>
        constructor
        · rintro ⟨ms, hms⟩
          simp at hms
        · rintro ⟨_, h2⟩
          obtain ⟨ms, hms⟩ := ih.mpr h2
          rw [hms] at hrest
          cases hrest
      | ok ms =>
        have hall := ih.mp ⟨ms, hrest⟩
        constructor
        · intro _
          exact ⟨hgood, hall⟩
        · intro _
          exact ⟨(n, m) :: ms, rfl⟩

/-- Claim C7: loading a configuration succeeds if and only if the root
is present, the `modules` mapping is non-empty, and every module has a
non-empty item list and a (defaulted) `repeat_count ≥ 1` — so
`ConfigurationError` is raised exactly when one of those conditions
fails, and a violating configuration never produces a loader. -/
theorem claim_C7_load_validation :
    ∀ root : Option Src.RawConfig,
      (∃ cl, Src.ConfigLoader.load root = .ok cl) ↔
        ∃ cfg, root = some cfg ∧ cfg.modules ≠ [] ∧
          ∀ p ∈ cfg.modules,
            p.2.items ≠ [] ∧ 1 ≤ p.2.repeat_count.getD 1 := by
  intro root
  cases root with
  | none => simp [Src.ConfigLoader.load]
  | some cfg =>
    simp only [Src.ConfigLoader.load, Option.some.injEq]
    by_cases hmod : cfg.modules.isEmpty
    · have hnil : cfg.modules = [] := by simpa [List.isEmpty_iff] using hmod
      rw [if_pos hmod]
      constructor
      · rintro ⟨cl, hcl⟩
        simp at hcl
      · rintro ⟨cfg2, hc2, hne2, _⟩
        rw [← hc2] at hne2
        exact absurd hnil hne2
    · have hne : cfg.modules ≠ [] := by simpa [List.isEmpty_iff] using hmod
      rw [if_neg hmod]
      cases hlm : Src.loadModules cfg.modules with
      | error e =>
        constructor
        · rintro ⟨cl, hcl⟩
          simp at hcl
        · rintro ⟨cfg2, hc2, _, hall⟩
          rw [← hc2] at hall
          obtain ⟨ms, hms⟩ := (Src.loadModules_ok _).mpr hall
          rw [hms] at hlm
          cases hlm
      | ok ms =>
        have hall := (Src.loadModules_ok _).mp ⟨ms, hlm⟩
        constructor
        · intro _
          exact ⟨cfg, rfl, hne, hall⟩
        · intro _
          exact ⟨{ modules := ms, default_module := cfg.default_module },
            rfl⟩

/-- Claim C8: `handle_interaction` without an active session fails
loudly with the no-active-session error and changes nothing; with an
active session and a validated module (non-empty items) it returns an
`ok` progress dictionary — no other error condition exists. -/
theorem claim_C8_interact_error_conditions :
    (∀ e : Src.LearningEngine, e.current_session = none →
      e.handle_interaction = (.error .noActiveSession, e)) ∧
    (∀ (e : Src.LearningEngine) (s : Src.SessionState)
       (m : Src.LearningModule),
      e.current_session = some s → e.current_module = some m →
      m.items ≠ [] →
      ∃ info, (e.handle_interaction).1 = .ok info) := by
  constructor
  · intro e hs
    unfold Src.LearningEngine.handle_interaction
    rw [hs]
  · intro e s m hs hm hN
    unfold Src.LearningEngine.handle_interaction
    rw [hs]
    dsimp only
    rw [hm]
    dsimp only
    unfold Src.LearningEngine.get_current_item
    dsimp only
    obtain ⟨it, hok, _⟩ := Src.get_item_ok m _ hN
    rw [hok]
    exact ⟨_, rfl⟩

/-- Witness for C8: a sessionless demo engine errors out; after
`start`, an interaction returns `ok`. -/
theorem claim_C8_witness :
    demoSrcEngine.handle_interaction
      = (.error .noActiveSession, demoSrcEngine) ∧
    ∃ info, ((demoSrcEngine.start (some "colors") 0).2.handle_interaction).1
      = .ok info := by
  constructor
  · exact claim_C8_interact_error_conditions.1 demoSrcEngine rfl
  · exact claim_C8_interact_error_conditions.2
      (demoSrcEngine.start (some "colors") 0).2
      (Src.startSession "colors" 0) colorsModule rfl rfl (by decide)

/-- Claim C9 counterexample: the empty string is a module name that is
not in the demo catalog, yet `start` with it does not raise — Python's
`if module_name:` treats `""` as falsy, so the call falls through to
the default module and starts a session, flipping `is_active` from
`false` to `true`. -/
theorem claim_C9_counterexample :
    demoLoader.modules.lookup "" = none ∧
    (∃ info, (demoSrcEngine.start (some "") 0).1 = .ok info) ∧
    (demoSrcEngine.start (some "") 0).2.is_active = true ∧
    demoSrcEngine.is_active = false :=
  ⟨rfl, ⟨_, rfl⟩, rfl, rfl⟩

/-- Claim C9 (amended): `start` with a non-empty module name that is
not in the catalog raises the module-not-found `ConfigurationError`
and leaves the engine exactly as it was — same session, same module,
same `is_active`; an empty (falsy) name is never looked up: `start`
then behaves exactly like a call with no name at all, dispatching to
the default module. -/
theorem claim_C9_start_unknown_module :
    (∀ (e : Src.LearningEngine) (n : String) (now : Nat),
      n ≠ "" →
      e.config_loader.modules.lookup n = none →
      e.start (some n) now
          = (.error (.configError (.moduleNotFound n)), e) ∧
      (e.start (some n) now).2.is_active = e.is_active ∧
      (e.start (some n) now).2.current_session = e.current_session ∧
      (e.start (some n) now).2.current_module = e.current_module) ∧
    (∀ (e : Src.LearningEngine) (now : Nat),
      e.start (some "") now = e.start none now) := by
  constructor
  · intro e n now hn h
    have hmod : e.config_loader.get_module n
        = .error (.moduleNotFound n) := by
      unfold Src.ConfigLoader.get_module
      rw [h]
    have ht : pyTruthy (some n) = true := by
      unfold pyTruthy
      dsimp only
      cases hb : n.isEmpty with
      | false => rfl
      | true => exact absurd ((String.isEmpty_iff n).mp hb) hn
    have hstart : e.start (some n) now
        = (.error (.configError (.moduleNotFound n)), e) := by
      unfold Src.LearningEngine.start
      rw [if_pos ht]
      simp only [Option.getD_some]
      rw [hmod]
    exact ⟨hstart, by rw [hstart], by rw [hstart], by rw [hstart]⟩
  · intro e now
    rfl

/-- Witness for the amended C9: the unknown non-empty name `animals`
fails and leaves the demo engine unchanged, and the empty name behaves
exactly like passing no name. -/
theorem claim_C9_witness :
    (demoSrcEngine.start (some "animals") 0
        = (.error (.configError (.moduleNotFound "animals")),
           demoSrcEngine) ∧
     (demoSrcEngine.start (some "animals") 0).2.is_active
        = demoSrcEngine.is_active ∧
     (demoSrcEngine.start (some "animals") 0).2.current_session
        = demoSrcEngine.current_session ∧
     (demoSrcEngine.start (some "animals") 0).2.current_module
        = demoSrcEngine.current_module) ∧
    demoSrcEngine.start (some "") 0 = demoSrcEngine.start none 0 := by
  constructor
  · exact claim_C9_start_unknown_module.1 demoSrcEngine "animals" 0
      (by decide) (by decide)
  · exact claim_C9_start_unknown_module.2 demoSrcEngine 0

/-- Claim C10: a module specification omitting `repeat_count` is
accepted with `repeat_count = 1`, one omitting `display_name` gets the
Python-capitalized module name, and every successfully loaded module
satisfies `repeat_count ≥ 1`. -/
theorem claim_C10_config_defaults :
    (∀ (name : String) (items : List RawItem), items ≠ [] →
      ∃ m, Src.LearningModule.init name ⟨none, none, items⟩ = .ok m ∧
        m.repeat_count = 1 ∧ m.display_name = pyCapitalize name) ∧
    (∀ (name : String) (config : Src.ModuleConfig)
       (m : Src.LearningModule),
      Src.LearningModule.init name config = .ok m →
      1 ≤ m.repeat_count) := by
  constructor
  · intro name items hN
    unfold Src.LearningModule.init
    have hb : ¬ (Src.ModuleConfig.mk none none items).items.isEmpty = true := by
      simpa [List.isEmpty_iff] using hN
    rw [if_neg hb, if_neg (by norm_num)]
    exact ⟨_, rfl, rfl, rfl⟩
  · intro name config m hinit
    unfold Src.LearningModule.init at hinit
    by_cases h1 : config.items.isEmpty
    · rw [if_pos h1] at hinit
      cases hinit
    · rw [if_neg h1] at hinit
      by_cases h2 : config.repeat_count.getD 1 < 1
      · rw [if_pos h2] at hinit
        cases hinit
      · rw [if_neg h2] at hinit
        injection hinit with hm
        rw [← hm]
        dsimp only
        omega

/-- Witness for C10: the bare specification with only items gets
`repeat_count = 1` and display name `Colors`; the fully specified demo
module has `repeat_count ≥ 1`. -/
theorem claim_C10_witness :
    (∃ m, Src.LearningModule.init "colors" ⟨none, none, demoItems⟩
        = .ok m ∧ m.repeat_count = 1 ∧
        m.display_name = pyCapitalize "colors") ∧
    1 ≤ colorsModule.repeat_count := by
  constructor
  · exact claim_C10_config_defaults.1 "colors" demoItems (by decide)
  · exact claim_C10_config_defaults.2 "colors"
      ⟨some "Colors", some 2, demoItems⟩ colorsModule rfl
